import Mathlib

/-!
Shallow embedding of the Brickfront client library (brickfront/build.py,
brickfront/review.py, brickfront/client.py, brickfront/errors.py).

Python values that can sit in a record attribute are modelled by `PyValue`;
exceptions are modelled by `Except PyError`.  Stateful pieces (the lazy
collection caches on `Build`) are modelled by explicit state passing.
The XML layer (`xml.etree.ElementTree`) is outside the repository, so a
parsed element is modelled structurally by `XMLElement` and an HTTP
response carries the result of `ET.fromstring(text)` as an `Option`.
-/

namespace Brickfront

/-- A Python runtime value as stored in a record attribute. `float` and
`date` carry the source text they were parsed from, since the library never
computes with them after parsing. -/
inductive PyValue where
  | none
  | str (s : String)
  | int (n : Int)
  | bool (b : Bool)
  | float (src : String)
  | date (src : String)
deriving DecidableEq, Repr

/-- The Python exceptions that the embedded code can raise. -/
inductive PyError where
  | typeError
  | valueError
  | attributeError
  | keyError
  | indexError
  | parseError
  | invalidRequest (msg : String)
  | invalidSetID
  | invalidLogin (msg : String)
deriving DecidableEq, Repr

instance {ε α : Type} [DecidableEq ε] [DecidableEq α] : DecidableEq (Except ε α) :=
  fun a b =>
    match a, b with
    | .error e, .error f =>
      if h : e = f then .isTrue (by rw [h]) else .isFalse (fun hh => h (by injection hh))
    | .ok x, .ok y =>
      if h : x = y then .isTrue (by rw [h]) else .isFalse (fun hh => h (by injection hh))
    | .error _, .ok _ => .isFalse (fun hh => nomatch hh)
    | .ok _, .error _ => .isFalse (fun hh => nomatch hh)

/-- A parsed XML element: tag, text content (`None` when absent) and child
elements, as exposed by `xml.etree.ElementTree`. -/
inductive XMLElement where
  | mk (tag : String) (text : Option String) (children : List XMLElement)

def XMLElement.tag : XMLElement → String
  | .mk t _ _ => t

def XMLElement.text : XMLElement → Option String
  | .mk _ t _ => t

def XMLElement.children : XMLElement → List XMLElement
  | .mk _ _ c => c

/-- The attribute store of a Python object, as an association list keyed by
attribute name. -/
abbrev Attrs := List (String × PyValue)

/-- `setattr(self, name, v)`: replace the first binding of `name` or append
a new one. -/
def setattr (a : Attrs) (name : String) (v : PyValue) : Attrs :=
  match a with
  | [] => [(name, v)]
  | (n, w) :: rest => if n = name then (name, v) :: rest else (n, w) :: setattr rest name v

/-- `getattr(self, name)` as a partial lookup. -/
def lookupAttr (a : Attrs) (name : String) : Option PyValue :=
  match a with
  | [] => Option.none
  | (n, w) :: rest => if n = name then some w else lookupAttr rest name

/-- ASCII whitespace as stripped by Python `str.strip`. -/
def isPySpace (c : Char) : Bool :=
  c == ' ' || c == '\t' || c == '\n' || c == '\x0d' || c == '\x0b' || c == '\x0c'

/-- Strip leading and trailing whitespace from a character list. -/
def trimChars (l : List Char) : List Char :=
  ((l.dropWhile isPySpace).reverse.dropWhile isPySpace).reverse

/-- Strip one leading `+` or `-` sign. -/
def dropSign : List Char → List Char
  | '-' :: rest => rest
  | '+' :: rest => rest
  | l => l

def digitsToNat (l : List Char) : Nat :=
  l.foldl (fun acc c => acc * 10 + (c.toNat - 48)) 0

/-- Models Python `int(s)` on a string: strip whitespace, optional sign,
then decimal digits.  (Digit-group underscores and non-ASCII digits are not
modelled; the library only ever receives plain ASCII numerals.) -/
def pyParseInt (s : String) : Option Int :=
  let t := trimChars s.toList
  let neg := t.head? == some '-'
  let core := dropSign t
  if !core.isEmpty && core.all Char.isDigit then
    some (if neg then -(digitsToNat core : Int) else (digitsToNat core : Int))
  else Option.none

/-- A nonempty all-digit character run. -/
def floatDigits (l : List Char) : Bool :=
  !l.isEmpty && l.all (·.isDigit)

/-- Mantissa of a Python float literal: `digits`, `digits.digits`,
`digits.` or `.digits`. -/
def floatMantissaOk (l : List Char) : Bool :=
  let p := l.span (·.isDigit)
  match p.2 with
  | [] => !p.1.isEmpty
  | c :: rest => c == '.' && (!p.1.isEmpty || !rest.isEmpty) && rest.all (·.isDigit)

/-- Exponent part of a Python float literal (the characters after `e`/`E`):
optional sign then digits. -/
def floatExponentOk (l : List Char) : Bool :=
  match l with
  | [] => false
  | c :: rest => if c == '+' || c == '-' then floatDigits rest else floatDigits l

/-- Models validity for Python `float(s)` on a string: stripped, optional
sign, then a finite literal with optional exponent, or `inf`/`infinity`/
`nan` case-insensitively. -/
def pyFloatOk (s : String) : Bool :=
  let cs := dropSign (trimChars s.toList)
  let low := cs.map Char.toLower
  if low == "inf".toList || low == "infinity".toList || low == "nan".toList then true
  else
    let p := cs.span (fun c => c != 'e' && c != 'E')
    match p.2 with
    | [] => floatMantissaOk p.1
    | _ :: expo => floatMantissaOk p.1 && floatExponentOk expo

/-- Take up to `n` leading digits. -/
def takeDigits : Nat → List Char → List Char × List Char
  | 0, l => ([], l)
  | _ + 1, [] => ([], [])
  | n + 1, c :: rest =>
    if c.isDigit then
      let p := takeDigits n rest
      (c :: p.1, p.2)
    else ([], c :: rest)

/-- Consume one expected literal character. -/
def chompLit (c : Char) : List Char → Option (List Char)
  | [] => Option.none
  | d :: rest => if d == c then some rest else Option.none

/-- Consume 1 to `maxDigits` digits whose value lies in `[lo, hi]`. -/
def chompNum (maxDigits lo hi : Nat) (l : List Char) : Option (Nat × List Char) :=
  let p := takeDigits maxDigits l
  if p.1.isEmpty then Option.none
  else
    let v := p.1.foldl (fun a c => a * 10 + (c.toNat - 48)) 0
    if lo ≤ v ∧ v ≤ hi then some (v, p.2) else Option.none

/-- Consume exactly `n` digits. -/
def chompNumExact (n : Nat) (l : List Char) : Option (Nat × List Char) :=
  let p := takeDigits n l
  if p.1.length = n then
    some (p.1.foldl (fun a c => a * 10 + (c.toNat - 48)) 0, p.2)
  else Option.none

def daysInMonth (y m : Nat) : Nat :=
  if m = 2 then (if (y % 4 = 0 ∧ y % 100 ≠ 0) ∨ y % 400 = 0 then 29 else 28)
  else if m = 4 ∨ m = 6 ∨ m = 9 ∨ m = 11 then 30 else 31

/-- Models whether `datetime.strptime(s, '%Y-%m-%dT%H:%M:%S.%f')` succeeds
for the fixed format string of build.py line 123 (four-digit year, 1-12 month,
day valid for the month, `T`, 0-23 hour, 0-59 minute, 0-59 second, `.`,
1-6 fractional digits, nothing left over). -/
def strptimeOk (s : String) : Bool :=
  (do
    let cs := s.toList
    let py ← chompNumExact 4 cs
    let cs ← chompLit '-' py.2
    let pm ← chompNum 2 1 12 cs
    let cs ← chompLit '-' pm.2
    let pd ← chompNum 2 1 31 cs
    let cs ← chompLit 'T' pd.2
    let ph ← chompNum 2 0 23 cs
    let cs ← chompLit ':' ph.2
    let pmin ← chompNum 2 0 59 cs
    let cs ← chompLit ':' pmin.2
    let ps ← chompNum 2 0 59 cs
    let cs ← chompLit '.' ps.2
    let pf ← chompNum 6 0 999999 cs
    if 1 ≤ py.1 ∧ pd.1 ≤ daysInMonth py.1 pm.1 ∧ pf.2 = [] then some () else Option.none
  ).isSome

/-- Python builtin `int` applied to an attribute value (build.py
translations for setID, variant, pieces, ACMDataCount, quantityOwned).
`int(None)` raises `TypeError`; only `None` and strings can occur here. -/
def pyIntCoerce : PyValue → Except Unit PyValue
  | .int n => .ok (.int n)
  | .bool b => .ok (.int (if b then 1 else 0))
  | .str s =>
    match pyParseInt s with
    | some n => .ok (.int n)
    | Option.none => .error ()
  | _ => .error ()

/-- build.py line 121: `toInt = lambda x: 0 if x is None else int(x)`. -/
def toInt : PyValue → Except Unit PyValue
  | .none => .ok (.int 0)
  | x => pyIntCoerce x

/-- Python `str.lower` (ASCII case mapping suffices for the tokens the
library compares against). -/
def pyLower (s : String) : String :=
  String.mk (s.toList.map Char.toLower)

/-- build.py line 122: `toBool` looks the lowercased value up in the
dictionary of the four recognised tokens and defaults to the raw value;
`x.lower()` raises `AttributeError` on non-strings. -/
def toBool : PyValue → Except Unit PyValue
  | .str s =>
    let l := pyLower s
    if l = "true" then .ok (.bool true)
    else if l = "false" then .ok (.bool false)
    else if l = "0" then .ok (.bool false)
    else if l = "1" then .ok (.bool true)
    else .ok (.str s)
  | _ => .error ()

/-- build.py line 123: `toDate` applies `datetime.strptime` with the fixed
timestamp format; it raises on non-strings and on format mismatches. -/
def toDate : PyValue → Except Unit PyValue
  | .str s => if strptimeOk s then .ok (.date s) else .error ()
  | _ => .error ()

/-- Python builtin `float` applied to an attribute value (the `rating`
translation); `float(None)` raises `TypeError`. -/
def pyFloatCoerce : PyValue → Except Unit PyValue
  | .str s => if pyFloatOk s then .ok (.float (String.mk (trimChars s.toList))) else .error ()
  | .int n => .ok (.float (toString n))
  | _ => .error ()

/-- One entry of build.py's `applicableTags` list: either a plain schema
tag or a `[sourceTag, attributeName]` renaming pair. -/
inductive SchemaTag where
  | plain (name : String)
  | renamed (src : String) (dst : String)
deriving DecidableEq, Repr

/-- build.py lines 55-92. -/
def applicableTags : List SchemaTag := [
  .plain "setID",
  .plain "number",
  .renamed "numberVariant" "variant",
  .plain "name",
  .plain "year",
  .plain "theme",
  .plain "themeGroup",
  .plain "subtheme",
  .plain "pieces",
  .plain "minifigs",
  .plain "imageURL",
  .plain "bricksetURL",
  .plain "released",
  .plain "owned",
  .plain "wanted",
  .renamed "qtyOwned" "quantityOwned",
  .plain "ACMDataCount",
  .plain "userNotes",
  .plain "ownedByTotal",
  .plain "wantedByTotal",
  .renamed "UKRetailPrice" "priceUK",
  .renamed "USRetailPrice" "priceUS",
  .renamed "CARetailPrice" "priceCA",
  .renamed "EURetailPrice" "priceEU",
  .renamed "USDateAddedToSAH" "dateAddedToStore",
  .renamed "USDateRemovedFromSAH" "dateRemovedFromStore",
  .plain "rating",
  .plain "reviewCount",
  .plain "packagingType",
  .plain "availability",
  .plain "instructionsCount",
  .plain "additionalImageCount",
  .plain "EAN",
  .plain "UPC",
  .plain "description",
  .plain "lastUpdated"]

/-- The attribute name a schema entry defaults (build.py lines 114-118). -/
def tagTarget : SchemaTag → String
  | .plain n => n
  | .renamed _ d => d

/-- The tag name under which a schema entry appears in the remote
response: the plain name, or the source tag of a renaming pair.  A field
is absent from an input exactly when no child carries this tag. -/
def srcName : SchemaTag → String
  | .plain n => n
  | .renamed s _ => s

/-- Keep the characters after the last closing-brace character
(`Char.ofNat 125`), or the whole list when none occurs. -/
def stripNSAux : List Char → List Char → List Char
  | [], acc => acc.reverse
  | c :: rest, acc =>
    if c == Char.ofNat 125 then stripNSAux rest [] else stripNSAux rest (c :: acc)

/-- build.py line 96: `i.tag.split(chr(125))[-1]`, dropping a namespace
prefix from the raw tag. -/
def stripNS (tag : String) : String :=
  String.mk (stripNSAux tag.toList [])

/-- build.py lines 99-108: look the raw tag up in the remaining
`applicableTags`; a plain hit is removed, otherwise the first renaming pair
whose source matches is removed and its target name used. -/
def renameStep (tags : List SchemaTag) (tag : String) : List SchemaTag × String :=
  if (SchemaTag.plain tag) ∈ tags then (tags.erase (.plain tag), tag)
  else
    match tags.find? (fun t => match t with
      | .renamed s _ => s == tag
      | .plain _ => false) with
    | some (.renamed s d) => (tags.erase (.renamed s d), d)
    | _ => (tags, tag)

/-- The tag and text of one child element, as consumed by `Build.__init__`. -/
structure XMLChild where
  tag : String
  text : Option String
deriving DecidableEq, Repr

def pyOfText : Option String → PyValue
  | Option.none => .none
  | some s => .str s

/-- build.py lines 95-111: iterate the children, renaming tags and setting
attributes, consuming `applicableTags` as it goes. -/
def decodeLoop : List XMLChild → List SchemaTag → Attrs → Attrs × List SchemaTag
  | [], tags, attrs => (attrs, tags)
  | c :: rest, tags, attrs =>
    let p := renameStep tags (stripNS c.tag)
    decodeLoop rest p.1 (setattr attrs p.2 (pyOfText c.text))

/-- build.py lines 114-118: every schema entry not consumed by the decode
loop is set to `None`. -/
def defaultsPhase (tags : List SchemaTag) (attrs : Attrs) : Attrs :=
  tags.foldl (fun a t => setattr a (tagTarget t) .none) attrs

/-- build.py lines 124-141: the `translationTags` table. -/
def translationTags : List (String × (PyValue → Except Unit PyValue)) := [
  ("setID", pyIntCoerce),
  ("variant", pyIntCoerce),
  ("pieces", pyIntCoerce),
  ("minifigs", toInt),
  ("reviewCount", toInt),
  ("instructionsCount", toInt),
  ("additionalImageCount", toInt),
  ("released", toBool),
  ("owned", toBool),
  ("wanted", toBool),
  ("rating", pyFloatCoerce),
  ("ACMDataCount", pyIntCoerce),
  ("quantityOwned", pyIntCoerce),
  ("dateAddedToStore", toDate),
  ("dateRemovedFromStore", toDate),
  ("lastUpdated", toDate)]

/-- build.py lines 144-149: for each translation entry, read the attribute
(outside the `try`, so a missing attribute propagates `AttributeError`),
apply the coercion inside `try/except`, and keep the old value when the
coercion raises. -/
def translateStep (a : Attrs) (nt : String × (PyValue → Except Unit PyValue)) :
    Except PyError Attrs :=
  match lookupAttr a nt.1 with
  | Option.none => .error .attributeError
  | some x =>
    match nt.2 x with
    | .ok v => .ok (setattr a nt.1 v)
    | .error _ => .ok a

def translatePhase (attrs : Attrs) : Except PyError Attrs :=
  translationTags.foldlM translateStep attrs

/-- The cumulative effect of a translation table on the value stored
under attribute `n`: each entry whose name matches transforms the value
by its coercion when that succeeds and keeps it otherwise, exactly as one
`translateStep` does. -/
def applyTransList : List (String × (PyValue → Except Unit PyValue)) → String → PyValue → PyValue
  | [], _, v => v
  | p :: rest, n, v =>
    applyTransList rest n
      (if p.1 = n then (match p.2 v with | .ok w => w | .error _ => v) else v)

/-- `Build.__init__` restricted to its decoding work (build.py lines
49-149), producing the attribute store.  The `raw` and `_client` fields
are threaded separately by the client model, and the three lazy caches are
modelled by `BuildLazy` below. -/
def buildInit (data : List XMLChild) : Except PyError Attrs :=
  let p := decodeLoop data applicableTags []
  translatePhase (defaultsPhase p.2 p.1)

/-- The decoded record handed back by the gateway. -/
abbrev Build := Attrs

/-- review.py `Review`: the ten positionally decoded fields. -/
structure Review where
  author : Option String
  datePosted : Option String
  overallRating : Int
  parts : Int
  buildingExperience : Int
  playability : Int
  valueForMoney : Int
  title : Option String
  review : Option String
  HTML : Bool
deriving DecidableEq, Repr

/-- `data[n].text` with Python `IndexError` on a missing index. -/
def elemAt (data : List XMLElement) (n : Nat) : Except PyError (Option String) :=
  match data.get? n with
  | Option.none => .error .indexError
  | some e => .ok e.text

/-- `int(text)` as used in review.py lines 20-24: `int(None)` raises
`TypeError`, an unparsable string raises `ValueError`. -/
def pyIntOfText : Option String → Except PyError Int
  | Option.none => .error .typeError
  | some s =>
    match pyParseInt s with
    | some n => .ok n
    | Option.none => .error .valueError

/-- review.py lines 27-34: the exact-token dictionary lookup for the
`HTML` flag; any other key (including `None`) raises `KeyError`. -/
def reviewHTMLMap : Option String → Except PyError Bool
  | some "true" => .ok true
  | some "false" => .ok false
  | some "True" => .ok true
  | some "False" => .ok false
  | some "1" => .ok true
  | some "0" => .ok false
  | _ => .error .keyError

/-- `Review.__init__` (review.py lines 17-34), decoding the element's
children positionally in source order. -/
def reviewInit (data : List XMLElement) : Except PyError Review := do
  let author ← elemAt data 0
  let datePosted ← elemAt data 1
  let overallRating ← pyIntOfText (← elemAt data 2)
  let parts ← pyIntOfText (← elemAt data 3)
  let buildingExperience ← pyIntOfText (← elemAt data 4)
  let playability ← pyIntOfText (← elemAt data 5)
  let valueForMoney ← pyIntOfText (← elemAt data 6)
  let title ← elemAt data 7
  let review ← elemAt data 8
  let HTML ← reviewHTMLMap (← elemAt data 9)
  return ⟨author, datePosted, overallRating, parts, buildingExperience,
    playability, valueForMoney, title, review, HTML⟩

/-- The three lazy collection caches on a `Build` (build.py lines 152-154),
all initially `None`. -/
structure BuildLazy where
  additionalImages : Option (List (Option String))
  reviews : Option (List Review)
  instructions : Option (List (Option String))
deriving DecidableEq, Repr

def initLazy : BuildLazy := ⟨Option.none, Option.none, Option.none⟩

/-!  The API gateway (client.py).  -/

/-- An HTTP response: status code, body text, and the result of
`ET.fromstring(text)` (`none` when the body is not well-formed XML);
the XML parser lives outside this repository, so its outcome is part of
the response model. -/
structure Response where
  status_code : Nat
  text : String
  xml : Option XMLElement

/-- The environment's HTTP layer: `requests.get` as a function from the
request URL to a response. -/
abbrev Http := String → Response

/-- client.py line 20 and lines 30-53, string-argument form (used by
`checkKey`): base URL, method name, `?`, then the raw argument string. -/
def getURLStr (method arguments : String) : String :=
  "http://brickset.com/api/v2.asmx/" ++ method ++ "?" ++ arguments

/-- client.py lines 43-48, dict-argument form: `k=v` pairs joined by `&`
in insertion order. -/
def getURLDict (method : String) (arguments : List (String × String)) : String :=
  getURLStr method (String.intercalate "&" (arguments.map fun kv => kv.1 ++ "=" ++ kv.2))

/-- client.py line 61: first character of `str(request.status_code)`. -/
def statusOkay (n : Nat) : Bool :=
  (toString n).front == '2' || (toString n).front == '3'

/-- The characters before the first occurrence of the two-character
sequence backslash-`r` (the whole list when it does not occur). -/
def beforeBackslashR : List Char → List Char
  | '\\' :: 'r' :: _ => []
  | c :: rest => c :: beforeBackslashR rest
  | [] => []

/-- client.py line 62: `str(request.text).split(backslash-r)[0][2:]` — the
separator is the two-character escape sequence, a literal backslash
followed by `r`, not a carriage return. -/
def extractErrorText (t : String) : String :=
  String.mk ((beforeBackslashR t.toList).drop 2)

/-- client.py lines 55-64, `Client.__isOkayRequest`: raise `InvalidRequest`
with the extracted server text unless the status code starts with 2 or 3. -/
def isOkayRequest (r : Response) : Except PyError Unit :=
  if statusOkay r.status_code then .ok () else .error (.invalidRequest (extractErrorText r.text))

/-- A Python list comprehension over an iterable whose element conversion
can raise: the first exception propagates. -/
def listCompM {α β : Type} (f : α → Except PyError β) : List α → Except PyError (List β)
  | [] => .ok []
  | a :: rest =>
    match f a with
    | .error e => .error e
    | .ok b =>
      match listCompM f rest with
      | .error e => .error e
      | .ok bs => .ok (b :: bs)

/-- Number of parameters of `Build.__init__` besides `self`
(build.py line 49: `data, client`). -/
def buildInitParams : Nat := 2

/-- Number of arguments passed to `_Build` at client.py lines 164, 189
and 215 (`i, self.__userHash, self`). -/
def buildCallArgs : Nat := 3

/-- The call `_Build(i, self.__userHash, self)`: CPython checks the
argument count against `Build.__init__` before running the body, raising
`TypeError` on a mismatch. -/
def constructBuild (i : XMLElement) : Except PyError Build :=
  if buildCallArgs = buildInitParams then
    buildInit (i.children.map fun c => ⟨c.tag, c.text⟩)
  else .error .typeError

/-- client.py lines 66-84, `Client.checkKey`. -/
def checkKey (http : Http) (apiKey : String) : Except PyError Bool :=
  let returned := http (getURLStr "checkKey" ("apiKey=" ++ apiKey))
  match isOkayRequest returned with
  | .error e => .error e
  | .ok _ =>
    match returned.xml with
    | Option.none => .error .parseError
    | some root => .ok (root.text == some "OK")

/-- client.py lines 86-118, `Client.login`; on success returns the new
`__userHash` together with the `True` result. -/
def login (http : Http) (apiKey username password : String) :
    Except PyError (String × Bool) :=
  let returned := http (getURLDict "login"
    [("apiKey", apiKey), ("username", username), ("password", password)])
  match isOkayRequest returned with
  | .error e => .error e
  | .ok _ =>
    match returned.xml with
    | Option.none => .error .parseError
    | some root =>
      match root.text with
      | Option.none => .error .attributeError
      | some t =>
        if "ERROR".toList.isPrefixOf t.toList then
          .error (.invalidLogin (String.mk (t.toList.drop 7)))
        else .ok (t, true)

/-- The keyword arguments of `Client.getSets`; a `none` field models an
absent keyword. -/
structure GetSetsKwargs where
  query : Option String
  theme : Option String
  subtheme : Option String
  setNumber : Option String
  year : Option String
  owned : Option String
  wanted : Option String
  orderBy : Option String
  pageSize : Option String
  pageNumber : Option String
  userName : Option String
deriving DecidableEq, Repr

def noKwargs : GetSetsKwargs :=
  ⟨Option.none, Option.none, Option.none, Option.none, Option.none, Option.none,
   Option.none, Option.none, Option.none, Option.none, Option.none⟩

/-- client.py lines 141-155: the `values` dictionary of `getSets`, in
insertion order, with the `kwargs.get` defaults. -/
def getSetsValues (apiKey userHash : String) (kw : GetSetsKwargs) : List (String × String) := [
  ("apiKey", apiKey),
  ("userHash", userHash),
  ("query", kw.query.getD ""),
  ("theme", kw.theme.getD ""),
  ("subtheme", kw.subtheme.getD ""),
  ("setNumber", kw.setNumber.getD ""),
  ("year", kw.year.getD ""),
  ("owned", kw.owned.getD ""),
  ("wanted", kw.wanted.getD ""),
  ("orderBy", kw.orderBy.getD "Number"),
  ("pageSize", kw.pageSize.getD "20"),
  ("pageNumber", kw.pageNumber.getD "1"),
  ("userName", kw.userName.getD "")]

/-- client.py lines 120-164, `Client.getSets`. -/
def getSets (http : Http) (apiKey userHash : String) (kw : GetSetsKwargs) :
    Except PyError (List Build) :=
  let returned := http (getURLDict "getSets" (getSetsValues apiKey userHash kw))
  match isOkayRequest returned with
  | .error e => .error e
  | .ok _ =>
    match returned.xml with
    | Option.none => .error .parseError
    | some root => listCompM constructBuild root.children

/-- client.py lines 166-192, `Client.getSet`. -/
def getSet (http : Http) (apiKey userHash setID : String) : Except PyError Build :=
  let returned := http (getURLDict "getSet"
    [("apiKey", apiKey), ("userHash", userHash), ("setID", setID)])
  match isOkayRequest returned with
  | .error e => .error e
  | .ok _ =>
    match returned.xml with
    | Option.none => .error .parseError
    | some root =>
      match listCompM constructBuild root.children with
      | .error e => .error e
      | .ok [] => .error .invalidSetID
      | .ok (b :: _) => .ok b

/-- client.py lines 194-215, `Client.getRecentlyUpdatedSets`. -/
def getRecentlyUpdatedSets (http : Http) (apiKey : String) (minutesAgo : Int) :
    Except PyError (List Build) :=
  let returned := http (getURLDict "getRecentlyUpdatedSets"
    [("apiKey", apiKey), ("minutesAgo", toString minutesAgo)])
  match isOkayRequest returned with
  | .error e => .error e
  | .ok _ =>
    match returned.xml with
    | Option.none => .error .parseError
    | some root => listCompM constructBuild root.children

/-- client.py lines 217-244, `Client.getAdditionalImages`:
`imageHolder[-1].text` for each child, `IndexError` on a childless one. -/
def getAdditionalImages (http : Http) (apiKey setID : String) :
    Except PyError (List (Option String)) :=
  let returned := http (getURLDict "getAdditionalImages"
    [("apiKey", apiKey), ("setID", setID)])
  match isOkayRequest returned with
  | .error e => .error e
  | .ok _ =>
    match returned.xml with
    | Option.none => .error .parseError
    | some root => listCompM (fun imageHolder =>
        match imageHolder.children.getLast? with
        | Option.none => .error .indexError
        | some e => .ok e.text) root.children

/-- client.py lines 246-268, `Client.getReviews`. -/
def getReviews (http : Http) (apiKey setID : String) : Except PyError (List Review) :=
  let returned := http (getURLDict "getReviews"
    [("apiKey", apiKey), ("setID", setID)])
  match isOkayRequest returned with
  | .error e => .error e
  | .ok _ =>
    match returned.xml with
    | Option.none => .error .parseError
    | some root => listCompM (fun i => reviewInit i.children) root.children

/-- client.py lines 270-292, `Client.getInstructions`: `i[0].text` for
each child, `IndexError` on a childless one. -/
def getInstructions (http : Http) (apiKey setID : String) :
    Except PyError (List (Option String)) :=
  let returned := http (getURLDict "getInstructions"
    [("apiKey", apiKey), ("setID", setID)])
  match isOkayRequest returned with
  | .error e => .error e
  | .ok _ =>
    match returned.xml with
    | Option.none => .error .parseError
    | some root => listCompM (fun i =>
        match i.children.head? with
        | Option.none => .error .indexError
        | some e => .ok e.text) root.children

/-!  The lazy relational accessors (build.py lines 161-215).  A property
read is a state transition on `BuildLazy`; the result triple is
(returned value or propagated exception, updated cache state, number of
gateway calls made by this read).  -/

/-- build.py lines 173-177, the `additionalImages` property: on a `None`
cache call `self._client.getAdditionalImages(self.setID)` and store the
result; the store does not happen when the call raises. -/
def readAdditionalImages (http : Http) (apiKey setID : String) (st : BuildLazy) :
    Except PyError (List (Option String)) × BuildLazy × Nat :=
  match st.additionalImages with
  | some v => (.ok v, st, 0)
  | Option.none =>
    match getAdditionalImages http apiKey setID with
    | .ok v => (.ok v, { st with additionalImages := some v }, 1)
    | .error e => (.error e, st, 1)

/-- build.py lines 192-196, the `reviews` property. -/
def readReviews (http : Http) (apiKey setID : String) (st : BuildLazy) :
    Except PyError (List Review) × BuildLazy × Nat :=
  match st.reviews with
  | some v => (.ok v, st, 0)
  | Option.none =>
    match getReviews http apiKey setID with
    | .ok v => (.ok v, { st with reviews := some v }, 1)
    | .error e => (.error e, st, 1)

/-- build.py lines 211-215, the `instructions` property. -/
def readInstructions (http : Http) (apiKey setID : String) (st : BuildLazy) :
    Except PyError (List (Option String)) × BuildLazy × Nat :=
  match st.instructions with
  | some v => (.ok v, st, 0)
  | Option.none =>
    match getInstructions http apiKey setID with
    | .ok v => (.ok v, { st with instructions := some v }, 1)
    | .error e => (.error e, st, 1)

/-- `n` consecutive reads of the `additionalImages` property, returning
the final cache state and the total number of gateway calls. -/
def readAdditionalImagesN (http : Http) (apiKey setID : String) :
    Nat → BuildLazy → BuildLazy × Nat
  | 0, st => (st, 0)
  | n + 1, st =>
    let p := readAdditionalImages http apiKey setID st
    let q := readAdditionalImagesN http apiKey setID n p.2.1
    (q.1, p.2.2 + q.2)

/-- `n` consecutive reads of the `reviews` property. -/
def readReviewsN (http : Http) (apiKey setID : String) :
    Nat → BuildLazy → BuildLazy × Nat
  | 0, st => (st, 0)
  | n + 1, st =>
    let p := readReviews http apiKey setID st
    let q := readReviewsN http apiKey setID n p.2.1
    (q.1, p.2.2 + q.2)

/-- `n` consecutive reads of the `instructions` property. -/
def readInstructionsN (http : Http) (apiKey setID : String) :
    Nat → BuildLazy → BuildLazy × Nat
  | 0, st => (st, 0)
  | n + 1, st =>
    let p := readInstructions http apiKey setID st
    let q := readInstructionsN http apiKey setID n p.2.1
    (q.1, p.2.2 + q.2)

/-!  The exception classes (errors.py) versus what client.py imports.  -/

/-- The exception class names defined by errors.py. -/
def errorsPyDefinedClasses : List String :=
  ["InvalidRequest", "InvalidApiKey", "InvalidLoginCredentials", "InvalidSetID"]

/-- The names client.py imports from `.errors` (client.py lines 3-6);
each missing name makes `import brickfront.client` raise `ImportError`. -/
def clientPyErrorImports : List String :=
  ["InvalidRequest", "InvalidKey", "InvalidLogin", "InvalidSetID"]

/-!  Concrete fixtures used by witnesses and counterexamples.  -/

/-- A successful response whose XML root has no children. -/
def respOk200 : Response := ⟨200, "okbody", some (.mk "ArrayOfSets" Option.none [])⟩

/-- A successful response whose XML root holds one set element. -/
def respOneSet : Response :=
  ⟨200, "okbody", some (.mk "ArrayOfSets" Option.none
    [.mk "sets" Option.none [.mk "setID" (some "1234") [], .mk "name" (some "TestSet") []]])⟩

/-- A 404 response whose body carries a server message before the escaped
carriage-return sequence and two leading representation characters. -/
def respBad404 : Response :=
  ⟨404, "b'The remote server returned an error.\\r\\n'", Option.none⟩

/-- Children of a review element, all fields well-formed except that the
overall rating (index 2) carries the given text. -/
def reviewDataRating (t : String) : List XMLElement :=
  [.mk "author" (some "someone") [],
   .mk "datePosted" (some "2017-01-01") [],
   .mk "overallRating" (some t) [],
   .mk "parts" (some "5") [],
   .mk "buildingExperience" (some "4") [],
   .mk "playability" (some "3") [],
   .mk "valueForMoney" (some "2") [],
   .mk "title" (some "a title") [],
   .mk "review" (some "a body") [],
   .mk "HTML" (some "true") []]

/-- Children of a review element with the five numeric sub-rating texts
(indices 2-6: overallRating, parts, buildingExperience, playability,
valueForMoney) supplied by the caller and the other fields well-formed. -/
def reviewDataNums (r p b pl v : String) : List XMLElement :=
  [.mk "author" (some "someone") [],
   .mk "datePosted" (some "2017-01-01") [],
   .mk "overallRating" (some r) [],
   .mk "parts" (some p) [],
   .mk "buildingExperience" (some b) [],
   .mk "playability" (some pl) [],
   .mk "valueForMoney" (some v) [],
   .mk "title" (some "a title") [],
   .mk "review" (some "a body") [],
   .mk "HTML" (some "true") []]

/-- The four schema fields whose `toInt` coercion turns a missing value
into 0. -/
def countFields : List String :=
  ["minifigs", "reviewCount", "instructionsCount", "additionalImageCount"]

/-!  Helper lemmas shared by the claim theorems.  -/

theorem lookupAttr_setattr_self (a : Attrs) (n : String) (v : PyValue) :
    lookupAttr (setattr a n v) n = some v := by
  induction a with
  | nil => simp [setattr, lookupAttr]
  | cons p rest ih =>
    by_cases h : p.1 = n
    · simp [setattr, lookupAttr, h]
    · simpa [setattr, lookupAttr, h] using ih

theorem lookupAttr_setattr_ne (a : Attrs) (m n : String) (v : PyValue) (h : m ≠ n) :
    lookupAttr (setattr a m v) n = lookupAttr a n := by
  induction a with
  | nil => simp [setattr, lookupAttr, h]
  | cons p rest ih =>
    by_cases hp : p.1 = m
    · simp [setattr, lookupAttr, hp, h]
    · simp [setattr, lookupAttr, hp, ih]

theorem lookupAttr_setattr_isSome (a : Attrs) (m n : String) (v : PyValue)
    (h : (lookupAttr a n).isSome = true) :
    (lookupAttr (setattr a m v) n).isSome = true := by
  by_cases hmn : m = n
  · subst hmn
    rw [lookupAttr_setattr_self]
    rfl
  · rwa [lookupAttr_setattr_ne a m n v hmn]

theorem decodeLoop_cons (c : XMLChild) (rest : List XMLChild) (tags : List SchemaTag)
    (a : Attrs) :
    decodeLoop (c :: rest) tags a =
      decodeLoop rest (renameStep tags (stripNS c.tag)).1
        (setattr a (renameStep tags (stripNS c.tag)).2 (pyOfText c.text)) := rfl

theorem defaultsPhase_cons (t : SchemaTag) (rest : List SchemaTag) (a : Attrs) :
    defaultsPhase (t :: rest) a = defaultsPhase rest (setattr a (tagTarget t) .none) := rfl

theorem renameStep_mem (tags : List SchemaTag) (raw : String) (t : SchemaTag)
    (ht : t ∈ tags) (hne : srcName t ≠ raw) : t ∈ (renameStep tags raw).1 := by
  unfold renameStep
  split
  · have hne2 : t ≠ SchemaTag.plain raw := by
      intro he
      subst he
      exact hne rfl
    exact (List.mem_erase_of_ne hne2).mpr ht
  · split
    · next s d heq =>
      have hp := List.find?_some heq
      have hs : s = raw := by simpa using hp
      have hne2 : t ≠ SchemaTag.renamed s d := by
        intro he
        subst he
        exact hne (by simpa [srcName] using hs)
      exact (List.mem_erase_of_ne hne2).mpr ht
    · exact ht

theorem renameStep_cases (tags : List SchemaTag) (raw : String) (t : SchemaTag)
    (ht : t ∈ tags) :
    t ∈ (renameStep tags raw).1 ∨ (renameStep tags raw).2 = tagTarget t := by
  unfold renameStep
  split
  · by_cases he : t = SchemaTag.plain raw
    · subst he
      right
      rfl
    · left
      exact (List.mem_erase_of_ne he).mpr ht
  · split
    · next s d heq =>
      by_cases he : t = SchemaTag.renamed s d
      · subst he
        right
        rfl
      · left
        exact (List.mem_erase_of_ne he).mpr ht
    · left
      exact ht

theorem renameStep_sublist (tags : List SchemaTag) (raw : String) :
    List.Sublist (renameStep tags raw).1 tags := by
  unfold renameStep
  split
  · exact List.erase_sublist _ _
  · split
    · exact List.erase_sublist _ _
    · exact List.Sublist.refl _

theorem decodeLoop_mem (cs : List XMLChild) (tags : List SchemaTag) (a : Attrs)
    (t : SchemaTag) (ht : t ∈ tags) (habs : ∀ c ∈ cs, stripNS c.tag ≠ srcName t) :
    t ∈ (decodeLoop cs tags a).2 := by
  induction cs generalizing tags a with
  | nil => exact ht
  | cons c rest ih =>
    rw [decodeLoop_cons]
    exact ih _ _
      (renameStep_mem _ _ _ ht (habs c (List.mem_cons_self c rest)).symm)
      (fun c2 h2 => habs c2 (List.mem_cons_of_mem _ h2))

theorem decodeLoop_sublist (cs : List XMLChild) (tags : List SchemaTag) (a : Attrs) :
    List.Sublist (decodeLoop cs tags a).2 tags := by
  induction cs generalizing tags a with
  | nil => exact List.Sublist.refl _
  | cons c rest ih =>
    rw [decodeLoop_cons]
    exact (ih _ _).trans (renameStep_sublist _ _)

theorem decodeLoop_lookup_isSome (cs : List XMLChild) (tags : List SchemaTag) (a : Attrs)
    (k : String) (h : (lookupAttr a k).isSome = true) :
    (lookupAttr (decodeLoop cs tags a).1 k).isSome = true := by
  induction cs generalizing tags a with
  | nil => exact h
  | cons c rest ih =>
    rw [decodeLoop_cons]
    exact ih _ _ (lookupAttr_setattr_isSome _ _ _ _ h)

theorem decodeLoop_mem_or_isSome (cs : List XMLChild) (tags : List SchemaTag) (a : Attrs)
    (t : SchemaTag) (ht : t ∈ tags) :
    t ∈ (decodeLoop cs tags a).2 ∨
      (lookupAttr (decodeLoop cs tags a).1 (tagTarget t)).isSome = true := by
  induction cs generalizing tags a with
  | nil => exact .inl ht
  | cons c rest ih =>
    rw [decodeLoop_cons]
    rcases renameStep_cases tags (stripNS c.tag) t ht with h1 | h1
    · exact ih _ _ h1
    · right
      apply decodeLoop_lookup_isSome
      rw [h1, lookupAttr_setattr_self]
      rfl

theorem defaultsPhase_lookup_isSome (tags : List SchemaTag) (a : Attrs) (k : String)
    (h : (lookupAttr a k).isSome = true) :
    (lookupAttr (defaultsPhase tags a) k).isSome = true := by
  induction tags generalizing a with
  | nil => exact h
  | cons t rest ih =>
    rw [defaultsPhase_cons]
    exact ih _ (lookupAttr_setattr_isSome _ _ _ _ h)

theorem defaultsPhase_mem_isSome (tags : List SchemaTag) (a : Attrs) (t : SchemaTag)
    (h : t ∈ tags) : (lookupAttr (defaultsPhase tags a) (tagTarget t)).isSome = true := by
  induction tags generalizing a with
  | nil => cases h
  | cons t2 rest ih =>
    rw [defaultsPhase_cons]
    rcases List.mem_cons.mp h with h1 | h1
    · subst h1
      exact defaultsPhase_lookup_isSome rest _ _ (by rw [lookupAttr_setattr_self]; rfl)
    · exact ih _ h1

theorem defaultsPhase_lookup_of_not_mem (tags : List SchemaTag) (a : Attrs) (k : String)
    (h : k ∉ tags.map tagTarget) : lookupAttr (defaultsPhase tags a) k = lookupAttr a k := by
  induction tags generalizing a with
  | nil => rfl
  | cons t rest ih =>
    simp only [List.map_cons, List.mem_cons, not_or] at h
    rw [defaultsPhase_cons, ih _ h.2, lookupAttr_setattr_ne _ _ _ _ (fun he => h.1 he.symm)]

theorem defaultsPhase_mem_value (tags : List SchemaTag) (a : Attrs) (t : SchemaTag)
    (h : t ∈ tags) (hnd : (tags.map tagTarget).Nodup) :
    lookupAttr (defaultsPhase tags a) (tagTarget t) = some PyValue.none := by
  induction tags generalizing a with
  | nil => cases h
  | cons t2 rest ih =>
    have hnd2 : (∀ x ∈ rest, ¬tagTarget x = tagTarget t2) ∧ (rest.map tagTarget).Nodup := by
      simpa [List.map_cons, List.nodup_cons] using hnd
    rw [defaultsPhase_cons]
    rcases List.mem_cons.mp h with h1 | h1
    · subst h1
      have hnotmem : tagTarget t ∉ rest.map tagTarget := fun hm => by
        rcases List.mem_map.mp hm with ⟨x, hx, he⟩
        exact hnd2.1 x hx he
      rw [defaultsPhase_lookup_of_not_mem _ _ _ hnotmem, lookupAttr_setattr_self]
    · exact ih _ h1 hnd2.2

/-- build.py's translation loop over an arbitrary table: when every
translated attribute is present, the fold succeeds (the `getattr` outside
the `try` never raises) and the value under each attribute ends up
transformed by `applyTransList`. -/
theorem foldlM_translateStep (ts : List (String × (PyValue → Except Unit PyValue)))
    (a : Attrs) (hpres : ∀ p ∈ ts, (lookupAttr a p.1).isSome = true) :
    ∃ a2, ts.foldlM translateStep a = .ok a2 ∧
      ∀ n v, lookupAttr a n = some v → lookupAttr a2 n = some (applyTransList ts n v) := by
  induction ts generalizing a with
  | nil =>
    exact ⟨a, rfl, fun n v hv => by simpa [applyTransList] using hv⟩
  | cons p rest ih =>
    obtain ⟨w, hw⟩ := Option.isSome_iff_exists.mp (hpres p (List.mem_cons_self p rest))
    have hnext : ∀ a1, (∀ q ∈ rest, (lookupAttr a1 q.1).isSome = true) →
        translateStep a p = .ok a1 →
        (∀ n v, lookupAttr a n = some v →
          lookupAttr a1 n = some (if p.1 = n then
            (match p.2 v with | .ok u => u | .error _ => v) else v)) →
        ∃ a2, List.foldlM translateStep a (p :: rest) = .ok a2 ∧
          ∀ n v, lookupAttr a n = some v →
            lookupAttr a2 n = some (applyTransList (p :: rest) n v) := by
      intro a1 hpres1 hstep hval1
      obtain ⟨a2, hfold, hval2⟩ := ih a1 hpres1
      refine ⟨a2, ?_, ?_⟩
      · rw [List.foldlM_cons, hstep]
        simpa using hfold
      · intro n v hv
        simp only [applyTransList]
        exact hval2 n _ (hval1 n v hv)
    cases hfw : p.2 w with
    | ok u =>
      refine hnext (setattr a p.1 u) ?_ ?_ ?_
      · exact fun q hq =>
          lookupAttr_setattr_isSome _ _ _ _ (hpres q (List.mem_cons_of_mem _ hq))
      · simp [translateStep, hw, hfw]
      · intro n v hv
        by_cases hn : p.1 = n
        · subst hn
          have hvw : w = v := by
            rw [hv] at hw
            exact (Option.some.inj hw).symm
          subst hvw
          rw [lookupAttr_setattr_self, if_pos rfl, hfw]
        · rw [lookupAttr_setattr_ne _ _ _ _ hn, if_neg hn]
          exact hv
    | error e =>
      refine hnext a ?_ ?_ ?_
      · exact fun q hq => hpres q (List.mem_cons_of_mem _ hq)
      · simp [translateStep, hw, hfw]
      · intro n v hv
        by_cases hn : p.1 = n
        · subst hn
          have hvw : w = v := by
            rw [hv] at hw
            exact (Option.some.inj hw).symm
          subst hvw
          rw [hv, if_pos rfl, hfw]
        · rw [if_neg hn]
          exact hv

/-- The concrete translation table of build.py maps a null value to 0
under the four `toInt` count fields and leaves it null everywhere else. -/
theorem applyTransList_none (n : String) :
    applyTransList translationTags n PyValue.none =
      if n ∈ countFields then PyValue.int 0 else PyValue.none := by
  by_cases h : n ∈ countFields
  · rw [if_pos h]
    rcases (show n = "minifigs" ∨ n = "reviewCount" ∨ n = "instructionsCount" ∨
        n = "additionalImageCount" by simpa [countFields] using h) with
      h1 | h1 | h1 | h1 <;> subst h1 <;> decide
  · rw [if_neg h]
    simp only [countFields, List.mem_cons, List.not_mem_nil, or_false, not_or] at h
    obtain ⟨h1, h2, h3, h4⟩ := h
    simp [applyTransList, translationTags, toInt, pyIntCoerce, Brickfront.toBool, toDate,
      pyFloatCoerce, Ne.symm h1, Ne.symm h2, Ne.symm h3, Ne.symm h4, ite_self]

/-- Every attribute named by the translation table is present after the
decode and defaults phases, for every input sequence. -/
theorem afterDefaults_trans_present (cs : List XMLChild) :
    ∀ p ∈ translationTags,
      (lookupAttr (defaultsPhase (decodeLoop cs applicableTags []).2
        (decodeLoop cs applicableTags []).1) p.1).isSome = true := by
  have main : ∀ t0 : SchemaTag, t0 ∈ applicableTags →
      (lookupAttr (defaultsPhase (decodeLoop cs applicableTags []).2
        (decodeLoop cs applicableTags []).1) (tagTarget t0)).isSome = true := by
    intro t0 h0
    rcases decodeLoop_mem_or_isSome cs applicableTags [] t0 h0 with h1 | h1
    · exact defaultsPhase_mem_isSome _ _ _ h1
    · exact defaultsPhase_lookup_isSome _ _ _ h1
  intro p hp
  simp only [translationTags, List.mem_cons, List.not_mem_nil, or_false] at hp
  rcases hp with rfl | rfl | rfl | rfl | rfl | rfl | rfl | rfl | rfl | rfl | rfl | rfl |
    rfl | rfl | rfl | rfl
  · exact main (.plain "setID") (by decide)
  · exact main (.renamed "numberVariant" "variant") (by decide)
  · exact main (.plain "pieces") (by decide)
  · exact main (.plain "minifigs") (by decide)
  · exact main (.plain "reviewCount") (by decide)
  · exact main (.plain "instructionsCount") (by decide)
  · exact main (.plain "additionalImageCount") (by decide)
  · exact main (.plain "released") (by decide)
  · exact main (.plain "owned") (by decide)
  · exact main (.plain "wanted") (by decide)
  · exact main (.plain "rating") (by decide)
  · exact main (.plain "ACMDataCount") (by decide)
  · exact main (.renamed "qtyOwned" "quantityOwned") (by decide)
  · exact main (.renamed "USDateAddedToSAH" "dateAddedToStore") (by decide)
  · exact main (.renamed "USDateRemovedFromSAH" "dateRemovedFromStore") (by decide)
  · exact main (.plain "lastUpdated") (by decide)

/-- Whether an exception is the transport error `InvalidRequest`. -/
def isIRName : PyError → Bool
  | .invalidRequest _ => true
  | _ => false

/-- Whether a call outcome raised the transport error `InvalidRequest`. -/
def isInvalidRequestErr {α : Type} : Except PyError α → Bool
  | .error e => isIRName e
  | .ok _ => false

theorem isOkayRequest_bad (r : Response) (h : statusOkay r.status_code = false) :
    isOkayRequest r = .error (.invalidRequest (extractErrorText r.text)) := by
  unfold isOkayRequest
  rw [h]
  rfl

theorem isOkayRequest_good (r : Response) (h : statusOkay r.status_code = true) :
    isOkayRequest r = .ok () := by
  unfold isOkayRequest
  rw [h]
  rfl

theorem constructBuild_eq (i : XMLElement) : constructBuild i = .error .typeError := rfl

theorem listCompM_constructBuild_ne_nil {l : List XMLElement} (h : l ≠ []) :
    listCompM constructBuild l = .error .typeError := by
  cases l with
  | nil => exact absurd rfl h
  | cons a rest => rfl

theorem listCompM_notIR {α β : Type} (f : α → Except PyError β) (l : List α)
    (hf : ∀ a, isInvalidRequestErr (f a) = false) :
    isInvalidRequestErr (listCompM f l) = false := by
  induction l with
  | nil => rfl
  | cons a rest ih =>
    cases hfa : f a with
    | error e =>
      have h2 := hf a
      rw [hfa] at h2
      simpa [listCompM, hfa] using h2
    | ok b =>
      cases hrest : listCompM f rest with
      | error e2 => simpa [listCompM, hfa, hrest] using ih
      | ok bs => simp [listCompM, hfa, hrest, isInvalidRequestErr]

theorem bind_notIR {α β : Type} (x : Except PyError α) (f : α → Except PyError β)
    (hx : isInvalidRequestErr x = false) (hf : ∀ a, isInvalidRequestErr (f a) = false) :
    isInvalidRequestErr (x >>= f) = false := by
  cases x with
  | error e => simpa [Bind.bind, Except.bind, isInvalidRequestErr] using hx
  | ok a => simpa [Bind.bind, Except.bind] using hf a

theorem elemAt_notIR (d : List XMLElement) (n : Nat) :
    isInvalidRequestErr (elemAt d n) = false := by
  unfold elemAt
  cases d.get? n <;> rfl

theorem pyIntOfText_notIR (t : Option String) :
    isInvalidRequestErr (pyIntOfText t) = false := by
  cases t with
  | none => rfl
  | some s => cases hp : pyParseInt s <;> simp [pyIntOfText, hp, isInvalidRequestErr, isIRName]

theorem reviewHTMLMap_notIR (t : Option String) :
    isInvalidRequestErr (reviewHTMLMap t) = false := by
  unfold reviewHTMLMap
  split <;> rfl

theorem reviewInit_notIR (d : List XMLElement) :
    isInvalidRequestErr (reviewInit d) = false := by
  unfold reviewInit
  refine bind_notIR _ _ (elemAt_notIR _ _) fun author => ?_
  refine bind_notIR _ _ (elemAt_notIR _ _) fun datePosted => ?_
  refine bind_notIR _ _ (elemAt_notIR _ _) fun t2 => ?_
  refine bind_notIR _ _ (pyIntOfText_notIR _) fun overallRating => ?_
  refine bind_notIR _ _ (elemAt_notIR _ _) fun t3 => ?_
  refine bind_notIR _ _ (pyIntOfText_notIR _) fun parts => ?_
  refine bind_notIR _ _ (elemAt_notIR _ _) fun t4 => ?_
  refine bind_notIR _ _ (pyIntOfText_notIR _) fun buildingExperience => ?_
  refine bind_notIR _ _ (elemAt_notIR _ _) fun t5 => ?_
  refine bind_notIR _ _ (pyIntOfText_notIR _) fun playability => ?_
  refine bind_notIR _ _ (elemAt_notIR _ _) fun t6 => ?_
  refine bind_notIR _ _ (pyIntOfText_notIR _) fun valueForMoney => ?_
  refine bind_notIR _ _ (elemAt_notIR _ _) fun title => ?_
  refine bind_notIR _ _ (elemAt_notIR _ _) fun review => ?_
  refine bind_notIR _ _ (elemAt_notIR _ _) fun t7 => ?_
  refine bind_notIR _ _ (reviewHTMLMap_notIR _) fun HTML => ?_
  rfl

/-!  The claim theorems.  -/

/-- Claim C1 (code bug): a successful response with a child element does
not produce decoded `Build` records; `getSets`, `getSet` and
`getRecentlyUpdatedSets` call `_Build` with three arguments (client.py
lines 164, 189, 215) while `Build.__init__` accepts two (build.py line
49), so CPython raises `TypeError` before any record is decoded. -/
theorem setEndpoints_raise_typeError :
    getSets (fun _ => respOneSet) "APIKEY" "" noKwargs = .error .typeError ∧
    getSet (fun _ => respOneSet) "APIKEY" "" "1234" = .error .typeError ∧
    getRecentlyUpdatedSets (fun _ => respOneSet) "APIKEY" 60 = .error .typeError ∧
    buildCallArgs ≠ buildInitParams := by
  decide

/-- Claim C2 (counterexample): the token `none` is not in the `toBool`
dictionary of build.py line 122, so it is passed through unchanged rather
than coerced to false; and `Review`'s `HTML` lookup raises `KeyError` on
the unrecognised token `TRUE` instead of passing it through. -/
theorem toBool_none_token_counterexample :
    Brickfront.toBool (.str "none") = .ok (.str "none") ∧
    Brickfront.toBool (.str "None") = .ok (.str "None") ∧
    Brickfront.toBool (.str "none") ≠ .ok (.bool false) ∧
    Brickfront.toBool (.str "none") ≠ .ok (.bool true) ∧
    reviewHTMLMap (some "TRUE") = .error .keyError := by
  decide

/-- Claim C2 (amended): in `Build`, boolean coercion maps `true`/`1` to
true and `false`/`0` to false case-insensitively and passes every other
token (including `none`) through unchanged; in `Review`, the `HTML` field
is an exact-token lookup over `true`/`True`/`1` and `false`/`False`/`0`
that raises `KeyError` on any other value. -/
theorem boolCoercion_amended (s : String) (t : Option String) :
    (pyLower s = "true" ∨ pyLower s = "1" → Brickfront.toBool (.str s) = .ok (.bool true)) ∧
    (pyLower s = "false" ∨ pyLower s = "0" → Brickfront.toBool (.str s) = .ok (.bool false)) ∧
    (pyLower s ∉ (["true", "false", "0", "1"] : List String) →
      Brickfront.toBool (.str s) = .ok (.str s)) ∧
    reviewHTMLMap (some "true") = .ok true ∧
    reviewHTMLMap (some "True") = .ok true ∧
    reviewHTMLMap (some "1") = .ok true ∧
    reviewHTMLMap (some "false") = .ok false ∧
    reviewHTMLMap (some "False") = .ok false ∧
    reviewHTMLMap (some "0") = .ok false ∧
    (t ∉ ([some "true", some "false", some "True", some "False", some "1", some "0"] :
        List (Option String)) → reviewHTMLMap t = .error .keyError) := by
  refine ⟨?_, ?_, ?_, rfl, rfl, rfl, rfl, rfl, rfl, ?_⟩
  · rintro (h | h) <;> simp [Brickfront.toBool, h]
  · rintro (h | h) <;> simp [Brickfront.toBool, h]
  · intro h
    simp only [List.mem_cons, List.not_mem_nil, or_false, not_or] at h
    obtain ⟨h1, h2, h3, h4⟩ := h
    simp [Brickfront.toBool, h1, h2, h3, h4]
  · intro h
    simp only [List.mem_cons, List.not_mem_nil, or_false, not_or] at h
    cases t with
    | none => rfl
    | some u =>
      unfold reviewHTMLMap
      split <;> simp_all

/-- Witness for the amended C2 theorem at concrete tokens. -/
theorem boolCoercion_amended_witness :
    pyLower "TRUE" = "true" ∧
    Brickfront.toBool (.str "TRUE") = .ok (.bool true) ∧
    pyLower "none" ∉ (["true", "false", "0", "1"] : List String) ∧
    Brickfront.toBool (.str "none") = .ok (.str "none") ∧
    (Option.none : Option String) ∉
      ([some "true", some "false", some "True", some "False", some "1", some "0"] :
        List (Option String)) ∧
    reviewHTMLMap Option.none = .error .keyError := by
  refine ⟨by decide, ?_, by decide, ?_, by decide, ?_⟩
  · exact (boolCoercion_amended "TRUE" Option.none).1 (Or.inl (by decide))
  · exact (boolCoercion_amended "none" Option.none).2.2.1 (by decide)
  · exact (boolCoercion_amended "x" Option.none).2.2.2.2.2.2.2.2.2 (by decide)

/-- Claim C3 (counterexample): `getSets` performs no sort-key validation;
with `orderBy` set to `Bogus` the request is still issued (its parameter
list carries the bogus key) and the call succeeds on a successful empty
response instead of being rejected. -/
theorem orderBy_not_validated :
    getSets (fun _ => respOk200) "APIKEY" "" { noKwargs with orderBy := some "Bogus" } = .ok [] ∧
    ("orderBy", "Bogus") ∈ getSetsValues "APIKEY" "" { noKwargs with orderBy := some "Bogus" } := by
  decide

/-- Claim C3 (amended): every sort-key string, enumerated or not, is
passed through unvalidated as the request's `orderBy` parameter, and the
outcome of `getSets` is determined solely by the response, never by the
sort key. -/
theorem orderBy_passthrough (s apiKey userHash : String) (kw : GetSetsKwargs) (r : Response) :
    ("orderBy", s) ∈ getSetsValues apiKey userHash { kw with orderBy := some s } ∧
    getSets (fun _ => r) apiKey userHash { kw with orderBy := some s } =
      getSets (fun _ => r) apiKey userHash kw := by
  constructor
  · simp [getSetsValues]
  · rfl

/-- Claim C4 (counterexample): an unparsable numeric field does not become
null: in `Build` the raw string is kept (the failed coercion is swallowed
by the `try/except` of build.py lines 146-149), and in `Review` the bare
`int(...)` of review.py line 20 raises `ValueError`. -/
theorem invalid_numeric_not_null :
    (buildInit [⟨"pieces", some "abc"⟩]).toOption.bind (fun a => lookupAttr a "pieces") =
      some (.str "abc") ∧
    (buildInit [⟨"pieces", some "abc"⟩]).toOption.bind (fun a => lookupAttr a "pieces") ≠
      some PyValue.none ∧
    reviewInit (reviewDataRating "abc") = .error .valueError := by
  decide

/-- Claim C4 (amended): in `Build`, a coercion that raises leaves the
field's prior value in place (`translateStep` returns the store
unchanged); in `Review`, each of the five numeric fields (overallRating,
parts, buildingExperience, playability, valueForMoney) raises
`ValueError` on an unparsable value instead of yielding null. -/
theorem invalid_numeric_amended (a : Attrs) (name : String)
    (f : PyValue → Except Unit PyValue) (x : PyValue) (t : String)
    (hx : lookupAttr a name = some x) (hf : f x = .error ())
    (ht : pyParseInt t = Option.none) :
    translateStep a (name, f) = .ok a ∧
    reviewInit (reviewDataNums t "5" "4" "3" "2") = .error .valueError ∧
    reviewInit (reviewDataNums "5" t "4" "3" "2") = .error .valueError ∧
    reviewInit (reviewDataNums "5" "4" t "3" "2") = .error .valueError ∧
    reviewInit (reviewDataNums "5" "4" "3" t "2") = .error .valueError ∧
    reviewInit (reviewDataNums "5" "4" "3" "2" t) = .error .valueError := by
  have h5 : pyParseInt "5" = some 5 := by decide
  have h4 : pyParseInt "4" = some 4 := by decide
  have h3 : pyParseInt "3" = some 3 := by decide
  have h2 : pyParseInt "2" = some 2 := by decide
  refine ⟨?_, ?_, ?_, ?_, ?_, ?_⟩
  · simp [translateStep, hx, hf]
  all_goals
    simp [reviewInit, reviewDataNums, elemAt, pyIntOfText, ht, h5, h4, h3, h2,
      Bind.bind, Except.bind, XMLElement.text, List.get?]

/-- Witness for the amended C4 theorem at concrete inputs: the unparsable
text `abc` in each numeric position. -/
theorem invalid_numeric_amended_witness :
    lookupAttr [("pieces", PyValue.str "abc")] "pieces" = some (.str "abc") ∧
    pyIntCoerce (.str "abc") = .error () ∧
    pyParseInt "abc" = Option.none ∧
    translateStep [("pieces", PyValue.str "abc")] ("pieces", pyIntCoerce) =
      .ok [("pieces", PyValue.str "abc")] ∧
    reviewInit (reviewDataNums "abc" "5" "4" "3" "2") = .error .valueError ∧
    reviewInit (reviewDataNums "5" "abc" "4" "3" "2") = .error .valueError ∧
    reviewInit (reviewDataNums "5" "4" "abc" "3" "2") = .error .valueError ∧
    reviewInit (reviewDataNums "5" "4" "3" "abc" "2") = .error .valueError ∧
    reviewInit (reviewDataNums "5" "4" "3" "2" "abc") = .error .valueError := by
  have h := invalid_numeric_amended [("pieces", PyValue.str "abc")] "pieces" pyIntCoerce
    (.str "abc") "abc" (by decide) (by decide) (by decide)
  exact ⟨by decide, by decide, by decide, h.1, h.2.1, h.2.2.1, h.2.2.2.1, h.2.2.2.2.1,
    h.2.2.2.2.2⟩

/-- Claim C5 (counterexample): a `Build` decoded from an input with no
fields holds 0, not null, in `minifigs` (its `toInt` coercion maps `None`
to 0). -/
theorem missing_minifigs_not_null :
    (buildInit []).toOption.bind (fun a => lookupAttr a "minifigs") = some (.int 0) ∧
    (buildInit []).toOption.bind (fun a => lookupAttr a "minifigs") ≠ some PyValue.none := by
  decide

/-- Claim C5 (amended): for every input field sequence, construction
succeeds, and every schema field whose source tag is absent from the
input ends up null, except the four `toInt` count fields, which end up
0. -/
theorem missing_fields_default (cs : List XMLChild) (t : SchemaTag)
    (ht : t ∈ applicableTags) (habs : ∀ c ∈ cs, stripNS c.tag ≠ srcName t) :
    (buildInit cs).toOption.bind (fun a => lookupAttr a (tagTarget t)) =
      some (if tagTarget t ∈ countFields then PyValue.int 0 else PyValue.none) := by
  have hsurv := decodeLoop_mem cs applicableTags [] t ht habs
  have hsub := decodeLoop_sublist cs applicableTags []
  have hnd : ((decodeLoop cs applicableTags []).2.map tagTarget).Nodup :=
    List.Nodup.sublist (hsub.map tagTarget)
      (by decide : (applicableTags.map tagTarget).Nodup)
  have hval := defaultsPhase_mem_value (decodeLoop cs applicableTags []).2
    (decodeLoop cs applicableTags []).1 t hsurv hnd
  obtain ⟨a2, hfold, hmap⟩ := foldlM_translateStep translationTags
    (defaultsPhase (decodeLoop cs applicableTags []).2 (decodeLoop cs applicableTags []).1)
    (afterDefaults_trans_present cs)
  have hb : buildInit cs = .ok a2 := hfold
  rw [hb]
  simp only [Except.toOption, Option.bind]
  rw [hmap (tagTarget t) PyValue.none hval, applyTransList_none]

/-- Witness for the amended C5 theorem: a non-empty input that does not
mention `minifigs` still yields 0 in that field. -/
theorem missing_fields_default_witness :
    (SchemaTag.plain "minifigs" ∈ applicableTags ∧
      (∀ c ∈ [(⟨"name", some "X"⟩ : XMLChild)],
        stripNS c.tag ≠ srcName (SchemaTag.plain "minifigs"))) ∧
    (buildInit [⟨"name", some "X"⟩]).toOption.bind
        (fun a => lookupAttr a (tagTarget (SchemaTag.plain "minifigs"))) =
      some (if tagTarget (SchemaTag.plain "minifigs") ∈ countFields then PyValue.int 0
        else PyValue.none) :=
  ⟨⟨by decide, by decide⟩, missing_fields_default _ _ (by decide) (by decide)⟩

theorem readAdditionalImagesN_cached (http : Http) (apiKey setID : String) (n : Nat)
    (st : BuildLazy) (v : List (Option String)) (h : st.additionalImages = some v) :
    readAdditionalImagesN http apiKey setID n st = (st, 0) := by
  induction n with
  | zero => rfl
  | succ m ih =>
    unfold readAdditionalImagesN readAdditionalImages
    rw [h]
    simpa using ih

theorem readReviewsN_cached (http : Http) (apiKey setID : String) (n : Nat)
    (st : BuildLazy) (v : List Review) (h : st.reviews = some v) :
    readReviewsN http apiKey setID n st = (st, 0) := by
  induction n with
  | zero => rfl
  | succ m ih =>
    unfold readReviewsN readReviews
    rw [h]
    simpa using ih

theorem readInstructionsN_cached (http : Http) (apiKey setID : String) (n : Nat)
    (st : BuildLazy) (v : List (Option String)) (h : st.instructions = some v) :
    readInstructionsN http apiKey setID n st = (st, 0) := by
  induction n with
  | zero => rfl
  | succ m ih =>
    unfold readInstructionsN readInstructions
    rw [h]
    simpa using ih

/-- Claim C6: for each of the three lazy collection properties, a read on
an unfetched cache performs exactly one gateway call and stores the
result, a read on a fetched cache performs none and returns the stored
value, and any positive number of consecutive reads performs exactly one
gateway call in total. -/
theorem lazy_collections_memoized (http : Http) (apiKey setID : String)
    (ai : List (Option String)) (rv : List Review) (ins : List (Option String))
    (w1 : List (Option String)) (w2 : List Review) (w3 : List (Option String))
    (st : BuildLazy) (n : Nat)
    (hai : getAdditionalImages http apiKey setID = .ok ai)
    (hrv : getReviews http apiKey setID = .ok rv)
    (hins : getInstructions http apiKey setID = .ok ins) :
    (readAdditionalImages http apiKey setID initLazy =
      (.ok ai, { initLazy with additionalImages := some ai }, 1)) ∧
    (st.additionalImages = some w1 →
      readAdditionalImages http apiKey setID st = (.ok w1, st, 0)) ∧
    (readAdditionalImagesN http apiKey setID (n + 1) initLazy =
      ({ initLazy with additionalImages := some ai }, 1)) ∧
    (readReviews http apiKey setID initLazy =
      (.ok rv, { initLazy with reviews := some rv }, 1)) ∧
    (st.reviews = some w2 → readReviews http apiKey setID st = (.ok w2, st, 0)) ∧
    (readReviewsN http apiKey setID (n + 1) initLazy =
      ({ initLazy with reviews := some rv }, 1)) ∧
    (readInstructions http apiKey setID initLazy =
      (.ok ins, { initLazy with instructions := some ins }, 1)) ∧
    (st.instructions = some w3 → readInstructions http apiKey setID st = (.ok w3, st, 0)) ∧
    (readInstructionsN http apiKey setID (n + 1) initLazy =
      ({ initLazy with instructions := some ins }, 1)) := by
  have c1 : readAdditionalImages http apiKey setID initLazy =
      (.ok ai, { initLazy with additionalImages := some ai }, 1) := by
    simp [readAdditionalImages, initLazy, hai]
  have c2 : readReviews http apiKey setID initLazy =
      (.ok rv, { initLazy with reviews := some rv }, 1) := by
    simp [readReviews, initLazy, hrv]
  have c3 : readInstructions http apiKey setID initLazy =
      (.ok ins, { initLazy with instructions := some ins }, 1) := by
    simp [readInstructions, initLazy, hins]
  refine ⟨c1, fun h => ?_, ?_, c2, fun h => ?_, ?_, c3, fun h => ?_, ?_⟩
  · simp [readAdditionalImages, h]
  · unfold readAdditionalImagesN
    rw [c1]
    simp [readAdditionalImagesN_cached http apiKey setID n
      { initLazy with additionalImages := some ai } ai rfl]
  · simp [readReviews, h]
  · unfold readReviewsN
    rw [c2]
    simp [readReviewsN_cached http apiKey setID n
      { initLazy with reviews := some rv } rv rfl]
  · simp [readInstructions, h]
  · unfold readInstructionsN
    rw [c3]
    simp [readInstructionsN_cached http apiKey setID n
      { initLazy with instructions := some ins } ins rfl]

/-- Witness for C6 at a concrete oracle: three consecutive reads of an
unfetched `additionalImages` make exactly one gateway call. -/
theorem lazy_collections_memoized_witness :
    getAdditionalImages (fun _ => respOk200) "APIKEY" "1234" = .ok [] ∧
    getReviews (fun _ => respOk200) "APIKEY" "1234" = .ok [] ∧
    getInstructions (fun _ => respOk200) "APIKEY" "1234" = .ok [] ∧
    readAdditionalImagesN (fun _ => respOk200) "APIKEY" "1234" 3 initLazy =
      ({ initLazy with additionalImages := some [] }, 1) := by
  have h := lazy_collections_memoized (fun _ => respOk200) "APIKEY" "1234"
    [] [] [] [] [] [] initLazy 2 (by decide) (by decide) (by decide)
  exact ⟨by decide, by decide, by decide, h.2.2.1⟩

/-- Claim C7: when the gateway fetch behind a lazy property raises, the
exception propagates, the cache stays unfetched, and a subsequent read
against a now-working gateway re-attempts the fetch and succeeds. -/
theorem lazy_fetch_error_not_cached (http http2 : Http) (apiKey setID : String)
    (e1 e2 e3 : PyError)
    (ai : List (Option String)) (rv : List Review) (ins : List (Option String))
    (h1 : getAdditionalImages http apiKey setID = .error e1)
    (h2 : getReviews http apiKey setID = .error e2)
    (h3 : getInstructions http apiKey setID = .error e3)
    (g1 : getAdditionalImages http2 apiKey setID = .ok ai)
    (g2 : getReviews http2 apiKey setID = .ok rv)
    (g3 : getInstructions http2 apiKey setID = .ok ins) :
    (readAdditionalImages http apiKey setID initLazy = (.error e1, initLazy, 1)) ∧
    (readAdditionalImages http2 apiKey setID
        (readAdditionalImages http apiKey setID initLazy).2.1 =
      (.ok ai, { initLazy with additionalImages := some ai }, 1)) ∧
    (readReviews http apiKey setID initLazy = (.error e2, initLazy, 1)) ∧
    (readReviews http2 apiKey setID (readReviews http apiKey setID initLazy).2.1 =
      (.ok rv, { initLazy with reviews := some rv }, 1)) ∧
    (readInstructions http apiKey setID initLazy = (.error e3, initLazy, 1)) ∧
    (readInstructions http2 apiKey setID (readInstructions http apiKey setID initLazy).2.1 =
      (.ok ins, { initLazy with instructions := some ins }, 1)) := by
  refine ⟨?_, ?_, ?_, ?_, ?_, ?_⟩ <;>
    simp [readAdditionalImages, readReviews, readInstructions, initLazy,
      h1, h2, h3, g1, g2, g3]

/-- Witness for C7 at concrete oracles: a 404 fetch propagates the
transport error without caching, and a retry against a healthy oracle
fetches successfully. -/
theorem lazy_fetch_error_not_cached_witness :
    getAdditionalImages (fun _ => respBad404) "APIKEY" "1234" =
      .error (.invalidRequest "The remote server returned an error.") ∧
    getAdditionalImages (fun _ => respOk200) "APIKEY" "1234" = .ok [] ∧
    readAdditionalImages (fun _ => respBad404) "APIKEY" "1234" initLazy =
      (.error (.invalidRequest "The remote server returned an error."), initLazy, 1) ∧
    readAdditionalImages (fun _ => respOk200) "APIKEY" "1234"
        (readAdditionalImages (fun _ => respBad404) "APIKEY" "1234" initLazy).2.1 =
      (.ok [], { initLazy with additionalImages := some [] }, 1) := by
  have h := lazy_fetch_error_not_cached (fun _ => respBad404) (fun _ => respOk200)
    "APIKEY" "1234"
    (.invalidRequest "The remote server returned an error.")
    (.invalidRequest "The remote server returned an error.")
    (.invalidRequest "The remote server returned an error.")
    [] [] [] (by decide) (by decide) (by decide) (by decide) (by decide) (by decide)
  exact ⟨by decide, by decide, h.1, h.2.1⟩

/-- Claim C8: on a successful response whose root has no children,
`getSet` raises the not-found error `InvalidSetID` while `getSets`
returns the empty list without raising. -/
theorem notFound_vs_emptyList (r : Response) (root : XMLElement)
    (apiKey userHash setID : String) (kw : GetSetsKwargs)
    (hok : statusOkay r.status_code = true) (hxml : r.xml = some root)
    (hempty : root.children = []) :
    getSet (fun _ => r) apiKey userHash setID = .error .invalidSetID ∧
    getSets (fun _ => r) apiKey userHash kw = .ok [] := by
  constructor
  · simp [getSet, isOkayRequest_good r hok, hxml, hempty, listCompM]
  · simp [getSets, isOkayRequest_good r hok, hxml, hempty, listCompM]

/-- Witness for C8 at the concrete empty successful response. -/
theorem notFound_vs_emptyList_witness :
    statusOkay respOk200.status_code = true ∧
    respOk200.xml = some (.mk "ArrayOfSets" Option.none []) ∧
    (XMLElement.mk "ArrayOfSets" Option.none []).children = [] ∧
    getSet (fun _ => respOk200) "APIKEY" "" "9999" = .error .invalidSetID ∧
    getSets (fun _ => respOk200) "APIKEY" "" noKwargs = .ok [] := by
  have h := notFound_vs_emptyList respOk200 (.mk "ArrayOfSets" Option.none [])
    "APIKEY" "" "9999" noKwargs (by decide) rfl rfl
  exact ⟨by decide, rfl, rfl, h.1, h.2⟩

/-- Claim C9: for every endpoint, a response whose status code does not
start with 2 or 3 makes the call raise `InvalidRequest` carrying the text
extracted from the body (first piece before the escaped carriage return,
offset by two characters), and a response whose status code starts with 2
or 3 never produces that error. -/
theorem transportError_characterization (r : Response)
    (apiKey userHash username password setID : String) (minutesAgo : Int)
    (kw : GetSetsKwargs) :
    (statusOkay r.status_code = false →
      checkKey (fun _ => r) apiKey = .error (.invalidRequest (extractErrorText r.text)) ∧
      login (fun _ => r) apiKey username password =
        .error (.invalidRequest (extractErrorText r.text)) ∧
      getSets (fun _ => r) apiKey userHash kw =
        .error (.invalidRequest (extractErrorText r.text)) ∧
      getSet (fun _ => r) apiKey userHash setID =
        .error (.invalidRequest (extractErrorText r.text)) ∧
      getRecentlyUpdatedSets (fun _ => r) apiKey minutesAgo =
        .error (.invalidRequest (extractErrorText r.text)) ∧
      getAdditionalImages (fun _ => r) apiKey setID =
        .error (.invalidRequest (extractErrorText r.text)) ∧
      getReviews (fun _ => r) apiKey setID =
        .error (.invalidRequest (extractErrorText r.text)) ∧
      getInstructions (fun _ => r) apiKey setID =
        .error (.invalidRequest (extractErrorText r.text))) ∧
    (statusOkay r.status_code = true →
      isInvalidRequestErr (checkKey (fun _ => r) apiKey) = false ∧
      isInvalidRequestErr (login (fun _ => r) apiKey username password) = false ∧
      isInvalidRequestErr (getSets (fun _ => r) apiKey userHash kw) = false ∧
      isInvalidRequestErr (getSet (fun _ => r) apiKey userHash setID) = false ∧
      isInvalidRequestErr (getRecentlyUpdatedSets (fun _ => r) apiKey minutesAgo) = false ∧
      isInvalidRequestErr (getAdditionalImages (fun _ => r) apiKey setID) = false ∧
      isInvalidRequestErr (getReviews (fun _ => r) apiKey setID) = false ∧
      isInvalidRequestErr (getInstructions (fun _ => r) apiKey setID) = false) := by
  constructor
  · intro hbad
    refine ⟨?_, ?_, ?_, ?_, ?_, ?_, ?_, ?_⟩ <;>
      simp [checkKey, login, getSets, getSet, getRecentlyUpdatedSets, getAdditionalImages,
        getReviews, getInstructions, isOkayRequest_bad r hbad]
  · intro hok
    have hgood := isOkayRequest_good r hok
    refine ⟨?_, ?_, ?_, ?_, ?_, ?_, ?_, ?_⟩
    · simp only [checkKey, hgood]
      cases r.xml <;> rfl
    · simp only [login, hgood]
      split
      · rfl
      · split
        · rfl
        · split <;> rfl
    · simp only [getSets, hgood]
      cases r.xml with
      | none => rfl
      | some root => exact listCompM_notIR _ _ fun i => by rw [constructBuild_eq]; rfl
    · simp only [getSet, hgood]
      split
      · rfl
      · next root heq =>
        cases root.children with
        | nil => rfl
        | cons a rest => rfl
    · simp only [getRecentlyUpdatedSets, hgood]
      cases r.xml with
      | none => rfl
      | some root => exact listCompM_notIR _ _ fun i => by rw [constructBuild_eq]; rfl
    · simp only [getAdditionalImages, hgood]
      cases r.xml with
      | none => rfl
      | some root =>
        refine listCompM_notIR _ _ fun i => ?_
        cases i.children.getLast? <;> rfl
    · simp only [getReviews, hgood]
      cases r.xml with
      | none => rfl
      | some root => exact listCompM_notIR _ _ fun i => reviewInit_notIR i.children
    · simp only [getInstructions, hgood]
      cases r.xml with
      | none => rfl
      | some root =>
        refine listCompM_notIR _ _ fun i => ?_
        cases i.children.head? <;> rfl

/-- Witness for C9 at a concrete 404 response and a concrete 200
response. -/
theorem transportError_characterization_witness :
    statusOkay respBad404.status_code = false ∧
    checkKey (fun _ => respBad404) "APIKEY" =
      .error (.invalidRequest "The remote server returned an error.") ∧
    statusOkay respOk200.status_code = true ∧
    isInvalidRequestErr (checkKey (fun _ => respOk200) "APIKEY") = false := by
  have hb := (transportError_characterization respBad404 "APIKEY" "" "u" "p" "1" 60
    noKwargs).1 (by decide)
  have hg := (transportError_characterization respOk200 "APIKEY" "" "u" "p" "1" 60
    noKwargs).2 (by decide)
  refine ⟨by decide, ?_, by decide, hg.1⟩
  have hk := hb.1
  rw [show extractErrorText respBad404.text = "The remote server returned an error."
    from by decide] at hk
  exact hk

/-- Claim C10 (code bug): client.py imports `InvalidKey` and
`InvalidLogin` from `.errors`, but errors.py defines `InvalidApiKey` and
`InvalidLoginCredentials`; importing the client module therefore raises
`ImportError`, so construction never reaches the key check. -/
theorem client_errors_import_mismatch :
    clientPyErrorImports.filter (fun n => !(errorsPyDefinedClasses.contains n)) =
      ["InvalidKey", "InvalidLogin"] ∧
    ("InvalidKey" ∈ clientPyErrorImports ∧ "InvalidKey" ∉ errorsPyDefinedClasses) ∧
    ("InvalidApiKey" ∈ errorsPyDefinedClasses ∧ "InvalidApiKey" ∉ clientPyErrorImports) := by
  decide

end Brickfront
